import Mathlib

/-
Verification of the document-lifecycle controller templates
(src/references/erpnext-master/26_TEMPLATES/doctype-controller.py and
api-endpoint.py) against their design specification.

Numeric document fields are modelled as `Option ℚ` (a Python attribute may
be unset / None); `flt` is frappe.utils.flt restricted to such values
(None becomes 0).  Dates are modelled as `Option ℤ` in day numbers, with
`getdate` mapping an unset date to the environment's current day, as
frappe's getdate does.  External collaborators (stock levels, permissions,
duplicate lookup) are fields of an `Env` record.
-/

namespace Erp

/-- Lifecycle status of a document (Draft / Submitted / Cancelled). -/
inductive Status where
  | Draft
  | Submitted
  | Cancelled
deriving DecidableEq

/-- Child row of the `items` table: fields read by the controller
(item_code, qty, rate, amount, warehouse, valuation_rate). -/
structure Item where
  item_code : String
  qty : Option ℚ
  rate : Option ℚ
  amount : Option ℚ
  warehouse : Option String
  valuation_rate : Option ℚ
deriving DecidableEq

/-- Child row of the `taxes` table: fields read by the controller
(charge_type, rate, tax_amount, account_head). -/
structure Tax where
  charge_type : String
  rate : Option ℚ
  tax_amount : Option ℚ
  account_head : String
deriving DecidableEq

/-- The document state the controller reads and mutates: the parent fields
referenced in doctype-controller.py plus the two child tables. -/
structure Document where
  name : String
  customer : Option String
  from_date : Option ℤ
  to_date : Option ℤ
  due_date : Option ℤ
  posting_date : Option ℤ
  items : List Item
  taxes : List Tax
  total_qty : Option ℚ
  total_amount : Option ℚ
  total_tax : Option ℚ
  grand_total : Option ℚ
  debit_account : String
  credit_account : String
  status : Status
deriving DecidableEq

/-- External collaborators of the controller: the current day (used by
getdate for unset dates), the stock collaborator
get_stock_balance(item_code, warehouse), the permission oracle used by the
spec-modelled check_permissions, the duplicate-record lookup used by
validate_unique_constraints, and the verdicts of the spec-modelled
check_if_delete_allowed and check_if_rename_allowed hooks. -/
structure Env where
  today : ℤ
  stock : String → String → ℚ
  has_permission : Bool
  duplicate_exists : Bool
  delete_allowed : Bool
  rename_allowed : Bool

/-- frappe.utils.flt on a possibly-unset numeric field: None becomes 0. -/
def flt (x : Option ℚ) : ℚ := x.getD 0

/-- Python truthiness of a possibly-unset string field: None and the empty
string are falsy. -/
def truthyS : Option String → Bool
  | none => false
  | some s => decide (s ≠ "")

/-- Python truthiness of a possibly-unset numeric field: None and 0 are
falsy. -/
def truthyQ : Option ℚ → Bool
  | none => false
  | some x => decide (x ≠ 0)

/-- Python truthiness of a possibly-unset date field: None is falsy. -/
def truthyD (d : Option ℤ) : Bool := d.isSome

/-- frappe.utils.getdate: an unset date resolves to the current day. -/
def getdate (env : Env) (d : Option ℤ) : ℤ := d.getD env.today

/-- The distinct failures frappe.throw raises in the controller and the
spec-modelled hooks; each constructor stands for one throw site and
carries the data its message formats. -/
inductive Err where
  | customerRequired
  | itemsRequired
  | fromAfterTo
  | dueBeforePosting
  | qtyNotPositive (item_code : String)
  | rateNegative (item_code : String)
  | insufficientStock (item_code : String) (available required : ℚ)
  | duplicateRecord
  | permissionDenied
  | cancelNotAllowed
  | deleteNotAllowed
  | renameNotAllowed
deriving DecidableEq

/-- The three error classes of the specification's error-handling design. -/
inductive ErrClass where
  | validation
  | externalDependency
  | permission
deriving DecidableEq

/-- Modelled from the spec: the error taxonomy assigns the
availability-against-stock failure to the external-dependency class, the
permission failure to the permission class, and every business-rule
failure to the validation class. -/
def errClass : Err → ErrClass
  | Err.insufficientStock _ _ _ => ErrClass.externalDependency
  | Err.permissionDenied => ErrClass.permission
  | _ => ErrClass.validation

/-- Whether an error is one of the two throws inside validate_quantities. -/
def errFromValidateQuantities : Err → Bool
  | Err.qtyNotPositive _ => true
  | Err.rateNegative _ => true
  | _ => false

/-- validate_required_fields: customer must be truthy, items nonempty. -/
def validate_required_fields (doc : Document) : Option Err :=
  if !truthyS doc.customer then some Err.customerRequired
  else if doc.items.isEmpty then some Err.itemsRequired
  else none

/-- validate_dates: from_date may not be after to_date (when both set);
due_date may not be before posting_date (when due_date set). -/
def validate_dates (env : Env) (doc : Document) : Option Err :=
  if truthyD doc.from_date && truthyD doc.to_date
      && decide (getdate env doc.from_date > getdate env doc.to_date) then
    some Err.fromAfterTo
  else if truthyD doc.due_date
      && decide (getdate env doc.due_date < getdate env doc.posting_date) then
    some Err.dueBeforePosting
  else none

/-- validate_quantities: for each item in order, flt qty must be positive
and flt rate non-negative; the first violation throws. -/
def validate_quantities : List Item → Option Err
  | [] => none
  | item :: rest =>
    if flt item.qty ≤ 0 then some (Err.qtyNotPositive item.item_code)
    else if flt item.rate < 0 then some (Err.rateNegative item.item_code)
    else validate_quantities rest

/-- validate_against_stock: for each item with truthy warehouse and truthy
qty, the stock collaborator's available quantity must cover qty; the first
shortfall throws. -/
def validate_against_stock (env : Env) : List Item → Option Err
  | [] => none
  | item :: rest =>
    if truthyS item.warehouse && truthyQ item.qty then
      let wh := item.warehouse.getD ""
      let available := env.stock item.item_code wh
      if available < flt item.qty then
        some (Err.insufficientStock item.item_code available (flt item.qty))
      else validate_against_stock env rest
    else validate_against_stock env rest

/-- validate_unique_constraints: throws when a submitted record for the
same customer already exists in the persistence collaborator. -/
def validate_unique_constraints (env : Env) : Option Err :=
  if env.duplicate_exists then some Err.duplicateRecord else none

/-- The body of the item loop of calculate_totals, threading the running
total_qty and total_amount and rebuilding the item list with amount set. -/
def calcItemsLoop : List Item → ℚ → ℚ → List Item × ℚ × ℚ
  | [], tq, ta => ([], tq, ta)
  | item :: rest, tq, ta =>
    let a := flt item.qty * flt item.rate
    let r := calcItemsLoop rest (tq + flt item.qty) (ta + a)
    ({ item with amount := some a } :: r.1, r.2)

/-- The body of the tax loop of calculate_taxes: an On Net Total row gets
tax_amount recomputed from the given net total, any other row is left as
is, and the (possibly updated) row's flt tax_amount is accumulated. -/
def calcTaxesLoop (ta : ℚ) : List Tax → ℚ → List Tax × ℚ
  | [], tt => ([], tt)
  | tax :: rest, tt =>
    let t2 :=
      if tax.charge_type = "On Net Total" then
        { tax with tax_amount := some (ta * flt tax.rate / 100) }
      else tax
    let r := calcTaxesLoop ta rest (tt + flt t2.tax_amount)
    (t2 :: r.1, r.2)

/-- calculate_taxes: resets total_tax, runs the tax loop against the
current total_amount, stores the updated rows and the accumulated
total_tax. -/
def calculate_taxes (doc : Document) : Document :=
  let r := calcTaxesLoop (flt doc.total_amount) doc.taxes 0
  { doc with taxes := r.1, total_tax := some r.2 }

/-- calculate_totals: resets total_qty and total_amount, runs the item
loop, calls calculate_taxes, then sets grand_total to
total_amount + total_tax. -/
def calculate_totals (doc : Document) : Document :=
  let r := calcItemsLoop doc.items 0 0
  let doc1 := { doc with items := r.1, total_qty := some r.2.1,
                         total_amount := some r.2.2 }
  let doc2 := calculate_taxes doc1
  { doc2 with grand_total := some (flt doc2.total_amount + flt doc2.total_tax) }

/-- validate: the controller's validation sequence in source order —
required fields, dates, quantities, totals computation, stock check —
short-circuiting on the first throw; the returned document carries the
mutations made before the throw (Python exceptions do not undo them). -/
def validate (env : Env) (doc : Document) : Document × Option Err :=
  match validate_required_fields doc with
  | some e => (doc, some e)
  | none =>
    match validate_dates env doc with
    | some e => (doc, some e)
    | none =>
      match validate_quantities doc.items with
      | some e => (doc, some e)
      | none =>
        let doc1 := calculate_totals doc
        match validate_against_stock env doc1.items with
        | some e => (doc1, some e)
        | none => (doc1, none)

/-- A general-ledger entry as built by make_gl_entries: exactly the keys
the controller puts into its gl dicts, with fields it omits left none. -/
structure GlEntry where
  account : String
  party_type : Option String
  party : Option String
  debit : Option ℚ
  credit : Option ℚ
  against : Option String
deriving DecidableEq

/-- make_gl_entries: one debit entry for grand_total against the debit
account, one credit entry for total_amount against the credit account,
and one credit entry per tax row for its tax_amount.  get_gl_dict is the
framework helper that merges standard fields; modelled from the spec as
carrying exactly the listed fields through. -/
def make_gl_entries (doc : Document) : List GlEntry :=
  [ { account := doc.debit_account, party_type := some "Customer",
      party := doc.customer, debit := doc.grand_total, credit := some 0,
      against := some doc.credit_account },
    { account := doc.credit_account, party_type := none, party := none,
      debit := some 0, credit := doc.total_amount, against := doc.customer } ]
  ++ doc.taxes.map (fun tax =>
      { account := tax.account_head, party_type := none, party := none,
        debit := some 0, credit := tax.tax_amount, against := doc.customer })

/-- A record in the external ledger: a posted entry plus whether it was
posted as a reversal (the cancel flag of the ledger collaborator). -/
structure LedgerRecord where
  entry : GlEntry
  reversal : Bool
deriving DecidableEq

/-- Modelled from the spec: the sign-inverted copy of a ledger entry used
for reversal postings (one reversal entry per original, sign inverted). -/
def invertEntry (e : GlEntry) : GlEntry :=
  { e with debit := e.debit.map (fun x => -x),
           credit := e.credit.map (fun x => -x) }

/-- Modelled from the spec: the ledger collaborator post_entries(entries,
reversal) — it appends the given entries to the ledger; with the reversal
flag it instead appends one sign-inverted entry per input entry. -/
def post_entries (ledger : List LedgerRecord) (entries : List GlEntry)
    (reversal : Bool) : List LedgerRecord :=
  if reversal then
    ledger ++ entries.map (fun e => LedgerRecord.mk (invertEntry e) true)
  else
    ledger ++ entries.map (fun e => LedgerRecord.mk e false)

/-- The state a transition acts on: the document plus the external general
ledger holding this document's posted entries. -/
structure World where
  doc : Document
  ledger : List LedgerRecord
deriving DecidableEq

/-- Modelled from the spec: get_gl_entries returns the ledger entries
created at submit time for this document, i.e. the posted non-reversal
records. -/
def get_gl_entries (w : World) : List GlEntry :=
  (w.ledger.filter (fun rec => !rec.reversal)).map (fun rec => rec.entry)

/-- Modelled from the spec: update_status is not defined in the template;
no behavior is specified for it, so it is the identity on the document. -/
def update_status (doc : Document) : Document := doc

/-- Modelled from the spec: validate_for_submit is not defined in the
template; no behavior is specified for it. -/
def validate_for_submit (doc : Document) : Document := doc

/-- Modelled from the spec: check_permissions consults the permission
oracle and raises the permission-class error when the actor lacks rights
for the transition. -/
def check_permissions (env : Env) : Option Err :=
  if env.has_permission then none else some Err.permissionDenied

/-- Modelled from the spec: check_if_cancel_allowed — only the explicit
cancel-after-submit path is allowed, so cancelling is permitted exactly
when the document is Submitted. -/
def check_if_cancel_allowed (doc : Document) : Option Err :=
  if doc.status = Status.Submitted then none else some Err.cancelNotAllowed

/-- Modelled from the spec: check_if_delete_allowed is not defined in the
template and the spec only says the on_trash callback may signal failure,
so it is modelled as a collaborator verdict. -/
def check_if_delete_allowed (env : Env) : Option Err :=
  if env.delete_allowed then none else some Err.deleteNotAllowed

/-- Modelled from the spec: check_if_rename_allowed is not defined in the
template and the spec only says the before_rename callback may reject the
rename, so it is modelled as a collaborator verdict. -/
def check_if_rename_allowed (env : Env) : Option Err :=
  if env.rename_allowed then none else some Err.renameNotAllowed

/-- Result of running one lifecycle transition: the resulting world, the
first error if any, and the hook points that were invoked, in order. -/
structure TResult where
  world : World
  err : Option Err
  invoked : List String
deriving DecidableEq

/-- The six lifecycle transitions of the specification's hook-order
table: insert, save, submit, cancel, delete and rename (the rename
carries the requested new identifier). -/
inductive Transition where
  | insert
  | save
  | submit
  | cancel
  | delete
  | rename (new_name : String)
deriving DecidableEq

/-- The save transition: validate → before_save → persist → on_update
(spec table), with the sequencer aborting on the first failure; a save
does not change the status.  The document mutations made before a throw
are kept (rollback is the persistence layer's business). -/
def run_save (env : Env) (w : World) : TResult :=
  match validate env w.doc with
  | (doc1, some e) =>
    { world := { w with doc := doc1 }, err := some e, invoked := ["validate"] }
  | (doc1, none) =>
    let doc2 := update_status doc1
    { world := { w with doc := doc2 }, err := none,
      invoked := ["validate", "before_save", "persist", "on_update"] }

/-- The insert transition: before_insert (set_defaults, which the template
leaves unspecified, and validate_unique_constraints) → validate →
before_save → persist → on_update → after_insert. -/
def run_insert (env : Env) (w : World) : TResult :=
  match validate_unique_constraints env with
  | some e => { world := w, err := some e, invoked := ["before_insert"] }
  | none =>
    match validate env w.doc with
    | (doc1, some e) =>
      { world := { w with doc := doc1 }, err := some e,
        invoked := ["before_insert", "validate"] }
    | (doc1, none) =>
      let doc2 := update_status doc1
      { world := { w with doc := doc2 }, err := none,
        invoked := ["before_insert", "validate", "before_save", "persist",
                    "on_update", "after_insert"] }

/-- The submit transition: validate (the controller's docstring: called on
save and before submit) → before_submit (check_permissions,
validate_for_submit) → persist with status Submitted → on_submit, whose
make_gl_entries posts the gl entries to the ledger collaborator.  The
stock-ledger and related-document side effects of on_submit concern
collaborators no claim mentions and are not tracked. -/
def run_submit (env : Env) (w : World) : TResult :=
  match validate env w.doc with
  | (doc1, some e) =>
    { world := { w with doc := doc1 }, err := some e, invoked := ["validate"] }
  | (doc1, none) =>
    match check_permissions env with
    | some e =>
      { world := { w with doc := doc1 }, err := some e,
        invoked := ["validate", "before_submit"] }
    | none =>
      let doc2 := validate_for_submit doc1
      let doc3 := { doc2 with status := Status.Submitted }
      let entries := make_gl_entries doc3
      let ledger1 := post_entries w.ledger entries false
      let doc4 := update_status doc3
      { world := { doc := doc4, ledger := ledger1 }, err := none,
        invoked := ["validate", "before_submit", "persist", "on_submit"] }

/-- The cancel transition: before_cancel (check_if_cancel_allowed) →
persist with status Cancelled → on_cancel, whose cancel_gl_entries posts
the document's gl entries with the reversal flag. -/
def run_cancel (env : Env) (w : World) : TResult :=
  match check_if_cancel_allowed w.doc with
  | some e => { world := w, err := some e, invoked := ["before_cancel"] }
  | none =>
    let doc2 := { w.doc with status := Status.Cancelled }
    let ledger1 := post_entries w.ledger (get_gl_entries w) true
    { world := { doc := doc2, ledger := ledger1 }, err := none,
      invoked := ["before_cancel", "persist", "on_cancel"] }

/-- The delete transition: on_trash (check_if_delete_allowed) → persist
delete → after_delete (cleanup_references, which the template leaves
unspecified).  The removal of the record itself belongs to the external
persistence collaborator and is not tracked in the world. -/
def run_delete (env : Env) (w : World) : TResult :=
  match check_if_delete_allowed env with
  | some e => { world := w, err := some e, invoked := ["on_trash"] }
  | none =>
    { world := w, err := none,
      invoked := ["on_trash", "persist", "after_delete"] }

/-- The rename transition: before_rename (check_if_rename_allowed) →
persist rename (the document takes the new identifier) → after_rename
(update_references, which concerns only external link records). -/
def run_rename (env : Env) (w : World) (new_name : String) : TResult :=
  match check_if_rename_allowed env with
  | some e => { world := w, err := some e, invoked := ["before_rename"] }
  | none =>
    { world := { w with doc := { w.doc with name := new_name } }, err := none,
      invoked := ["before_rename", "persist", "after_rename"] }

/-- Dispatch a transition to its pipeline. -/
def run_transition (env : Env) (w : World) : Transition → TResult
  | Transition.insert => run_insert env w
  | Transition.save => run_save env w
  | Transition.submit => run_submit env w
  | Transition.cancel => run_cancel env w
  | Transition.delete => run_delete env w
  | Transition.rename new_name => run_rename env w new_name

/-- The hook points that run after the persist step of some transition. -/
def afterHookNames : List String :=
  ["on_update", "after_insert", "on_submit", "on_cancel", "after_delete",
   "after_rename"]

/-- Run a list of checks over a document in order, short-circuiting on the
first failure; a passing check hands its (possibly mutated) document to
the next one. -/
def runChecks (doc : Document) :
    List (Document → Document × Option Err) → Document × Option Err
  | [] => (doc, none)
  | c :: cs =>
    match c doc with
    | (d, some e) => (d, some e)
    | (d, none) => runChecks d cs

/-- The required-field check as a document transformer (no mutation). -/
def checkRequired (doc : Document) : Document × Option Err :=
  (doc, validate_required_fields doc)

/-- The date check as a document transformer (no mutation). -/
def checkDates (env : Env) (doc : Document) : Document × Option Err :=
  (doc, validate_dates env doc)

/-- The quantity/rate check as a document transformer (no mutation). -/
def checkQuantities (doc : Document) : Document × Option Err :=
  (doc, validate_quantities doc.items)

/-- The stock-availability check as a document transformer (no mutation). -/
def checkStock (env : Env) (doc : Document) : Document × Option Err :=
  (doc, validate_against_stock env doc.items)

/-- The derived-total computation as a document transformer (never
fails). -/
def checkTotals (doc : Document) : Document × Option Err :=
  (calculate_totals doc, none)

/-- Modelled from the spec: the claimed ordering of the validate
sub-sequence — required fields, dates, quantities, availability against
stock, then derived-total computation. -/
def validateClaimedOrder (env : Env) (doc : Document) : Document × Option Err :=
  runChecks doc [checkRequired, checkDates env, checkQuantities,
                 checkStock env, checkTotals]

/-- The validate sub-sequence in the order the source actually composes:
required fields, dates, quantities, derived-total computation, then the
stock check. -/
def validateCodeOrder (env : Env) (doc : Document) : Document × Option Err :=
  runChecks doc [checkRequired, checkDates env, checkQuantities,
                 checkTotals, checkStock env]

/-- A Customer record in the persistence collaborator: the fields
get_customer_info reads. -/
structure Customer where
  name : String
  customer_name : String
  customer_type : String
  credit_limit : ℚ
  territory : String
  customer_group : String
deriving DecidableEq

/-- The dictionary get_customer_info returns. -/
structure CustomerInfo where
  name : String
  customer_name : String
  customer_type : String
  credit_limit : ℚ
  territory : String
  customer_group : String
deriving DecidableEq

/-- The caller-visible exception of the customer endpoint, carrying the
message data (the customer identifier the message formats). -/
inductive ApiErr where
  | customerNotFound (customer : String)
deriving DecidableEq

/-- get_customer_info: throws the not-found exception when no Customer
with the identifier exists in the persistence collaborator (db.exists and
get_doc are modelled by one lookup into the same consistent store),
otherwise returns the dictionary of the customer's details. -/
def get_customer_info (db : String → Option Customer) (customer : String) :
    Except ApiErr CustomerInfo :=
  match db customer with
  | none => Except.error (ApiErr.customerNotFound customer)
  | some cd =>
    Except.ok { name := cd.name, customer_name := cd.customer_name,
                customer_type := cd.customer_type,
                credit_limit := cd.credit_limit, territory := cd.territory,
                customer_group := cd.customer_group }

/-- The per-item effect of the calculate_totals loop: amount is set to
flt qty * flt rate and every other field is kept. -/
def itemCalc (item : Item) : Item :=
  { item with amount := some (flt item.qty * flt item.rate) }

/-- The per-tax-row effect of the calculate_taxes loop against a given
net total: an On Net Total row gets tax_amount recomputed, any other row
is kept unchanged. -/
def taxCalc (ta : ℚ) (tax : Tax) : Tax :=
  if tax.charge_type = "On Net Total" then
    { tax with tax_amount := some (ta * flt tax.rate / 100) }
  else tax

/-- Sum of flt qty over a list of items, in row order. -/
def sumQty (items : List Item) : ℚ :=
  (items.map (fun it => flt it.qty)).sum

/-- Sum of flt qty * flt rate over a list of items, in row order. -/
def sumAmount (items : List Item) : ℚ :=
  (items.map (fun it => flt it.qty * flt it.rate)).sum

/-- Sum of flt tax_amount over a list of tax rows, in row order. -/
def sumTax (taxes : List Tax) : ℚ :=
  (taxes.map (fun t => flt t.tax_amount)).sum

/-- A draft document with valid header fields and empty child tables, the
base for the concrete test documents. -/
def baseDoc : Document :=
  { name := "DOC-0001", customer := some "CUST-0001", from_date := none,
    to_date := none, due_date := none, posting_date := none, items := [],
    taxes := [], total_qty := none, total_amount := none, total_tax := none,
    grand_total := none, debit_account := "Debtors",
    credit_account := "Sales", status := Status.Draft }

/-- The end-to-end example document of the specification: items
[qty 2 rate 100, qty 1 rate 50] and one On Net Total tax row at 10%. -/
def exampleDoc : Document :=
  { baseDoc with
    items := [ { item_code := "ITEM-A", qty := some 2, rate := some 100,
                 amount := none, warehouse := none, valuation_rate := none },
               { item_code := "ITEM-B", qty := some 1, rate := some 50,
                 amount := none, warehouse := none, valuation_rate := none } ],
    taxes := [ { charge_type := "On Net Total", rate := some 10,
                 tax_amount := none, account_head := "VAT" } ] }

/-- An environment whose stock collaborator reports zero stock
everywhere, with permission granted and no duplicate record. -/
def env0 : Env :=
  { today := 0, stock := fun _ _ => 0, has_permission := true,
    duplicate_exists := false, delete_allowed := true,
    rename_allowed := true }

/-- An environment whose stock collaborator reports ample stock
everywhere, with permission granted and no duplicate record. -/
def env1 : Env :=
  { today := 0, stock := fun _ _ => 1000, has_permission := true,
    duplicate_exists := false, delete_allowed := true,
    rename_allowed := true }

/-- An item whose qty of 5 exceeds the zero stock env0 reports for its
warehouse. -/
def itemStockShort : Item :=
  { item_code := "ITEM-A", qty := some 5, rate := some 10, amount := none,
    warehouse := some "WH-1", valuation_rate := none }

/-- An item with qty 0. -/
def itemQtyZero : Item :=
  { item_code := "ITEM-A", qty := some 0, rate := some 10, amount := none,
    warehouse := none, valuation_rate := none }

/-- A document with one item requiring more stock than env0 reports:
under env0 its stock check fails while every earlier check passes. -/
def docStockShort : Document :=
  { baseDoc with items := [itemStockShort] }

/-- A document with a qty-0 item and a customer: its quantity check is
the first to fail. -/
def docQtyZero : Document :=
  { baseDoc with items := [itemQtyZero] }

/-- A document with a qty-0 item and no customer: its required-field
check already fails, before the quantity check is reached. -/
def docQtyZeroNoCustomer : Document :=
  { baseDoc with customer := none, items := [itemQtyZero] }

/-- A document like docStockShort but with no customer: its required-field
check fails before the stock check is reached. -/
def docStockShortNoCustomer : Document :=
  { docStockShort with customer := none }

/-- A document with one item, one tax row and a warehouse, submitting
cleanly under env1. -/
def docOK : Document :=
  { baseDoc with
    items := [ { item_code := "ITEM-A", qty := some 2, rate := some 100,
                 amount := none, warehouse := some "WH-1",
                 valuation_rate := none } ],
    taxes := [ { charge_type := "On Net Total", rate := some 10,
                 tax_amount := none, account_head := "VAT" } ] }

/-- The calculate_totals item loop accumulates onto its arguments the sums
over the list and maps itemCalc over the rows. -/
theorem calcItemsLoop_eq (items : List Item) : ∀ tq ta : ℚ,
    calcItemsLoop items tq ta =
      (items.map itemCalc, tq + sumQty items, ta + sumAmount items) := by
  induction items with
  | nil => intro tq ta; simp [calcItemsLoop, sumQty, sumAmount]
  | cons item rest ih =>
    intro tq ta
    simp only [calcItemsLoop, ih, List.map_cons, sumQty, sumAmount,
      List.sum_cons, itemCalc, Prod.mk.injEq]
    refine ⟨trivial, by ring, by ring⟩

/-- The calculate_taxes tax loop accumulates onto its argument the sum of
flt tax_amount over the updated rows and maps taxCalc over the rows. -/
theorem calcTaxesLoop_eq (ta : ℚ) (taxes : List Tax) : ∀ tt : ℚ,
    calcTaxesLoop ta taxes tt =
      (taxes.map (taxCalc ta), tt + sumTax (taxes.map (taxCalc ta))) := by
  induction taxes with
  | nil => intro tt; simp [calcTaxesLoop, sumTax]
  | cons tax rest ih =>
    intro tt
    simp only [calcTaxesLoop, ih, List.map_cons, sumTax, List.sum_cons,
      taxCalc, Prod.mk.injEq]
    refine ⟨trivial, by ring⟩

/-- Closed form of calculate_totals: every field it writes, in terms of
the row-order sums, with all other document fields untouched. -/
theorem calculate_totals_eq (doc : Document) :
    calculate_totals doc =
      { doc with
        items := doc.items.map itemCalc,
        total_qty := some (sumQty doc.items),
        total_amount := some (sumAmount doc.items),
        taxes := doc.taxes.map (taxCalc (sumAmount doc.items)),
        total_tax :=
          some (sumTax (doc.taxes.map (taxCalc (sumAmount doc.items)))),
        grand_total :=
          some (sumAmount doc.items +
            sumTax (doc.taxes.map (taxCalc (sumAmount doc.items)))) } := by
  unfold calculate_totals calculate_taxes
  simp [calcItemsLoop_eq, calcTaxesLoop_eq, flt]

/-- validate never changes the document's status: the checks do not write
fields and calculate_totals writes only totals, taxes and item amounts. -/
theorem validate_fst_status (env : Env) (doc : Document) :
    (validate env doc).1.status = doc.status := by
  cases h1 : validate_required_fields doc with
  | some e => simp [validate, h1]
  | none =>
    cases h2 : validate_dates env doc with
    | some e => simp [validate, h1, h2]
    | none =>
      cases h3 : validate_quantities doc.items with
      | some e => simp [validate, h1, h2, h3]
      | none =>
        cases h4 : validate_against_stock env (calculate_totals doc).items with
        | some e =>
          simp only [validate, h1, h2, h3, h4]
          simp [calculate_totals_eq]
        | none =>
          simp only [validate, h1, h2, h3, h4]
          simp [calculate_totals_eq]

/-- validate either leaves the items untouched (failure before the totals
computation) or maps itemCalc over them. -/
theorem validate_fst_items (env : Env) (doc : Document) :
    (validate env doc).1.items = doc.items ∨
    (validate env doc).1.items = doc.items.map itemCalc := by
  cases h1 : validate_required_fields doc with
  | some e => exact Or.inl (by simp [validate, h1])
  | none =>
    cases h2 : validate_dates env doc with
    | some e => exact Or.inl (by simp [validate, h1, h2])
    | none =>
      cases h3 : validate_quantities doc.items with
      | some e => exact Or.inl (by simp [validate, h1, h2, h3])
      | none =>
        cases h4 : validate_against_stock env (calculate_totals doc).items with
        | some e =>
          refine Or.inr ?_
          simp only [validate, h1, h2, h3, h4]
          simp [calculate_totals_eq]
        | none =>
          refine Or.inr ?_
          simp only [validate, h1, h2, h3, h4]
          simp [calculate_totals_eq]

/-- When the first three checks pass, validate computes the totals and
returns the stock check's verdict on the recomputed document. -/
theorem validate_eq_of_checks_pass (env : Env) (doc : Document)
    (hreq : validate_required_fields doc = none)
    (hdates : validate_dates env doc = none)
    (hqty : validate_quantities doc.items = none) :
    validate env doc =
      (calculate_totals doc,
       validate_against_stock env (calculate_totals doc).items) := by
  unfold validate
  rw [hreq, hdates, hqty]
  cases h : validate_against_stock env (calculate_totals doc).items <;> simp [h]

/-- When the required-field check throws, validate stops there. -/
theorem validate_eq_of_required_fail (env : Env) (doc : Document) (e : Err)
    (hreq : validate_required_fields doc = some e) :
    validate env doc = (doc, some e) := by
  unfold validate
  rw [hreq]

/-- When the date check throws first, validate stops there. -/
theorem validate_eq_of_dates_fail (env : Env) (doc : Document) (e : Err)
    (hreq : validate_required_fields doc = none)
    (hdates : validate_dates env doc = some e) :
    validate env doc = (doc, some e) := by
  unfold validate
  rw [hreq, hdates]

/-- When the quantity check throws first, validate stops there. -/
theorem validate_eq_of_quantities_fail (env : Env) (doc : Document) (e : Err)
    (hreq : validate_required_fields doc = none)
    (hdates : validate_dates env doc = none)
    (hqty : validate_quantities doc.items = some e) :
    validate env doc = (doc, some e) := by
  unfold validate
  rw [hreq, hdates, hqty]

/-- A passing quantity check means every row has positive flt qty and
non-negative flt rate. -/
theorem validate_quantities_none (items : List Item)
    (h : validate_quantities items = none) :
    ∀ item ∈ items, 0 < flt item.qty ∧ 0 ≤ flt item.rate := by
  induction items with
  | nil => intro item hm; cases hm
  | cons it rest ih =>
    intro item hm
    unfold validate_quantities at h
    by_cases h1 : flt it.qty ≤ 0
    · rw [if_pos h1] at h; cases h
    · rw [if_neg h1] at h
      by_cases h2 : flt it.rate < 0
      · rw [if_pos h2] at h; cases h
      · rw [if_neg h2] at h
        rcases List.mem_cons.mp hm with heq | hm
        · subst heq; exact ⟨lt_of_not_le h1, le_of_not_lt h2⟩
        · exact ih h item hm

/-- A row with flt qty = 0 makes the quantity check throw one of its two
errors (possibly at an earlier offending row). -/
theorem validate_quantities_zero_fails (items : List Item)
    (h : ∃ item ∈ items, flt item.qty = 0) :
    ∃ e, validate_quantities items = some e ∧
      errFromValidateQuantities e = true := by
  induction items with
  | nil => rcases h with ⟨item, hm, _⟩; cases hm
  | cons it rest ih =>
    unfold validate_quantities
    by_cases h1 : flt it.qty ≤ 0
    · exact ⟨Err.qtyNotPositive it.item_code, by rw [if_pos h1], rfl⟩
    · rw [if_neg h1]
      by_cases h2 : flt it.rate < 0
      · exact ⟨Err.rateNegative it.item_code, by rw [if_pos h2], rfl⟩
      · rw [if_neg h2]
        rcases h with ⟨item, hm, hq⟩
        rcases List.mem_cons.mp hm with heq | hm
        · exact absurd (heq ▸ hq).le h1
        · exact ih ⟨item, hm, hq⟩

/-- If every row has truthy-positive qty and some row's stock balance
falls short of its qty at a truthy warehouse, the stock check throws an
insufficient-stock error (possibly at an earlier offending row). -/
theorem validate_against_stock_fails (env : Env) (items : List Item)
    (hpos : ∀ item ∈ items, 0 < flt item.qty)
    (h : ∃ item ∈ items, truthyS item.warehouse = true ∧
      env.stock item.item_code (item.warehouse.getD "") < flt item.qty) :
    ∃ c a r, validate_against_stock env items =
      some (Err.insufficientStock c a r) := by
  induction items with
  | nil => rcases h with ⟨item, hm, _⟩; cases hm
  | cons it rest ih =>
    unfold validate_against_stock
    by_cases hc : truthyS it.warehouse && truthyQ it.qty
    · rw [if_pos hc]
      by_cases hl : env.stock it.item_code (it.warehouse.getD "") < flt it.qty
      · exact ⟨it.item_code, env.stock it.item_code (it.warehouse.getD ""),
          flt it.qty, by rw [if_pos hl]⟩
      · rw [if_neg hl]
        rcases h with ⟨item, hm, hw, hs⟩
        rcases List.mem_cons.mp hm with heq | hm
        · exact absurd (heq ▸ hs) hl
        · exact ih (fun x hx => hpos x (List.mem_cons_of_mem it hx))
            ⟨item, hm, hw, hs⟩
    · rw [if_neg hc]
      rcases h with ⟨item, hm, hw, hs⟩
      rcases List.mem_cons.mp hm with heq | hm
      · exfalso
        apply hc
        have hq : truthyQ it.qty = true := by
          have hpos0 := hpos it (List.mem_cons_self it rest)
          unfold truthyQ
          unfold flt at hpos0
          cases hq : it.qty with
          | none => rw [hq] at hpos0; simp [Option.getD] at hpos0
          | some x =>
            rw [hq] at hpos0
            simp only [Option.getD] at hpos0
            simp [ne_of_gt hpos0]
        subst heq
        rw [hw, hq]
        rfl
      · exact ih (fun x hx => hpos x (List.mem_cons_of_mem it hx))
          ⟨item, hm, hw, hs⟩

/-- itemCalc keeps item_code, qty and warehouse. -/
theorem itemCalc_fields (item : Item) :
    (itemCalc item).item_code = item.item_code ∧
    (itemCalc item).qty = item.qty ∧
    (itemCalc item).warehouse = item.warehouse := ⟨rfl, rfl, rfl⟩

/-- When validate throws, any transition that runs validate (insert with
no duplicate record, save, submit) surfaces that error, leaves status and
ledger untouched, and invokes no hook point beyond validate. -/
theorem run_transition_validate_fail (env : Env) (w : World) (t : Transition)
    (e : Err)
    (ht : t = Transition.insert ∨ t = Transition.save ∨
      t = Transition.submit)
    (hdup : t = Transition.insert → env.duplicate_exists = false)
    (hv : (validate env w.doc).2 = some e) :
    (run_transition env w t).err = some e ∧
    (run_transition env w t).world.doc.status = w.doc.status ∧
    (run_transition env w t).world.ledger = w.ledger ∧
    ∀ hname ∈ (run_transition env w t).invoked,
      hname = "before_insert" ∨ hname = "validate" := by
  have hst := validate_fst_status env w.doc
  rcases hveq : validate env w.doc with ⟨d1, oe⟩
  rw [hveq] at hv hst
  simp only at hv hst
  subst hv
  rcases ht with rfl | rfl | rfl
  · have hrun : run_transition env w Transition.insert =
        { world := { w with doc := d1 }, err := some e,
          invoked := ["before_insert", "validate"] } := by
      simp only [run_transition, run_insert, validate_unique_constraints,
        hdup rfl, Bool.false_eq_true, if_false, hveq]
    rw [hrun]
    refine ⟨rfl, hst, rfl, ?_⟩
    intro hname hm
    simpa using hm
  · have hrun : run_transition env w Transition.save =
        { world := { w with doc := d1 }, err := some e,
          invoked := ["validate"] } := by
      simp only [run_transition, run_save, hveq]
    rw [hrun]
    refine ⟨rfl, hst, rfl, ?_⟩
    intro hname hm
    simp only [List.mem_cons, List.not_mem_nil, or_false] at hm
    exact Or.inr hm
  · have hrun : run_transition env w Transition.submit =
        { world := { w with doc := d1 }, err := some e,
          invoked := ["validate"] } := by
      simp only [run_transition, run_submit, hveq]
    rw [hrun]
    refine ⟨rfl, hst, rfl, ?_⟩
    intro hname hm
    simp only [List.mem_cons, List.not_mem_nil, or_false] at hm
    exact Or.inr hm

/-- Closed form of calculate_taxes: taxes mapped through taxCalc against
the current flt total_amount, total_tax set to their flt tax_amount sum,
everything else untouched. -/
theorem calculate_taxes_eq (doc : Document) :
    calculate_taxes doc =
      { doc with taxes := doc.taxes.map (taxCalc (flt doc.total_amount)),
                 total_tax := some (sumTax (doc.taxes.map
                   (taxCalc (flt doc.total_amount)))) } := by
  unfold calculate_taxes
  simp [calcTaxesLoop_eq]

/-- The sum of a constant-zero map is zero. -/
theorem sum_map_zero {α : Type} (l : List α) :
    (l.map (fun _ => (0 : ℚ))).sum = 0 := by
  induction l <;> simp [*]

/-- Claim C1: calculate_totals sets each row's amount to qty * rate in row
order; total_qty and total_amount to the row sums of qty and amount; each
On Net Total tax row's tax_amount to total_amount * rate / 100 while an
Actual row passes its pre-set tax_amount through; total_tax to the sum of
tax_amount over the tax rows; grand_total to total_amount + total_tax.
On the document with items [qty 2 rate 100, qty 1 rate 50] and one
On Net Total tax row at rate 10 it yields total_amount = 250,
total_tax = 25 and grand_total = 275. -/
theorem C1_calculate_totals (doc : Document) :
    (calculate_totals doc).items = doc.items.map itemCalc ∧
    (∀ item ∈ doc.items,
      (itemCalc item).amount = some (flt item.qty * flt item.rate)) ∧
    (calculate_totals doc).total_qty = some (sumQty doc.items) ∧
    (calculate_totals doc).total_amount = some (sumAmount doc.items) ∧
    (calculate_totals doc).taxes =
      doc.taxes.map (taxCalc (sumAmount doc.items)) ∧
    (∀ tax ∈ doc.taxes, tax.charge_type = "On Net Total" →
      taxCalc (sumAmount doc.items) tax =
        { tax with
          tax_amount := some (sumAmount doc.items * flt tax.rate / 100) }) ∧
    (∀ tax ∈ doc.taxes, tax.charge_type = "Actual" →
      taxCalc (sumAmount doc.items) tax = tax) ∧
    (calculate_totals doc).total_tax =
      some (sumTax (calculate_totals doc).taxes) ∧
    (calculate_totals doc).grand_total =
      some (sumAmount doc.items + sumTax (calculate_totals doc).taxes) ∧
    ((calculate_totals exampleDoc).total_amount = some 250 ∧
     (calculate_totals exampleDoc).total_tax = some 25 ∧
     (calculate_totals exampleDoc).grand_total = some 275) := by
  refine ⟨by rw [calculate_totals_eq], fun item _ => rfl,
    by rw [calculate_totals_eq], by rw [calculate_totals_eq],
    by rw [calculate_totals_eq], ?_, ?_,
    by rw [calculate_totals_eq], by rw [calculate_totals_eq], ?_⟩
  · intro tax _ hct
    simp [taxCalc, hct]
  · intro tax _ hct
    simp [taxCalc, hct]
  · refine ⟨?_, ?_, ?_⟩ <;>
      norm_num +decide [calculate_totals_eq, exampleDoc, baseDoc, sumAmount,
        sumTax, sumQty, taxCalc, flt]

/-- Witness for C1 at the example document. -/
theorem C1_calculate_totals_witness :
    (calculate_totals exampleDoc).total_amount = some 250 ∧
    (calculate_totals exampleDoc).total_tax = some 25 ∧
    (calculate_totals exampleDoc).grand_total = some 275 :=
  (C1_calculate_totals exampleDoc).2.2.2.2.2.2.2.2.2

/-- Claim C4: after calculate_totals completes, grand_total equals
total_amount + total_tax on the resulting document state. -/
theorem C4_grand_total_equation (doc : Document) :
    (calculate_totals doc).grand_total =
      some (flt (calculate_totals doc).total_amount +
            flt (calculate_totals doc).total_tax) := by
  rw [calculate_totals_eq]
  simp [flt]

/-- Claim C10: calculate_taxes leaves every tax row whose charge_type is
not On Net Total (Actual or unrecognised) entirely unchanged, still adds
its unchanged flt tax_amount into total_tax (total_tax is the sum over
the resulting rows), and modifies no tax row field other than
tax_amount. -/
theorem C10_calculate_taxes_frame (doc : Document) :
    (calculate_taxes doc).taxes =
      doc.taxes.map (taxCalc (flt doc.total_amount)) ∧
    (∀ tax ∈ doc.taxes, tax.charge_type ≠ "On Net Total" →
      taxCalc (flt doc.total_amount) tax = tax) ∧
    (∀ tax ∈ doc.taxes,
      (taxCalc (flt doc.total_amount) tax).charge_type = tax.charge_type ∧
      (taxCalc (flt doc.total_amount) tax).rate = tax.rate ∧
      (taxCalc (flt doc.total_amount) tax).account_head = tax.account_head) ∧
    (calculate_taxes doc).total_tax =
      some (sumTax (calculate_taxes doc).taxes) ∧
    (calculate_taxes doc).items = doc.items ∧
    (calculate_taxes doc).total_amount = doc.total_amount ∧
    (calculate_taxes doc).grand_total = doc.grand_total ∧
    (calculate_taxes doc).status = doc.status := by
  refine ⟨by rw [calculate_taxes_eq], ?_, ?_, by rw [calculate_taxes_eq],
    by rw [calculate_taxes_eq], by rw [calculate_taxes_eq],
    by rw [calculate_taxes_eq], by rw [calculate_taxes_eq]⟩
  · intro tax _ hct
    simp [taxCalc, hct]
  · intro tax _
    unfold taxCalc
    split <;> exact ⟨rfl, rfl, rfl⟩

/-- Witness for C10 at the example document: its Actual-free tax table
has one On Net Total row, and a second document with an Actual row keeps
that row unchanged. -/
theorem C10_calculate_taxes_frame_witness :
    (calculate_taxes exampleDoc).taxes =
      exampleDoc.taxes.map (taxCalc (flt exampleDoc.total_amount)) ∧
    (calculate_taxes exampleDoc).total_tax =
      some (sumTax (calculate_taxes exampleDoc).taxes) :=
  ⟨(C10_calculate_taxes_frame exampleDoc).1,
   (C10_calculate_taxes_frame exampleDoc).2.2.2.1⟩

/-- Claim C9: the gl entries built from a document on which
calculate_totals has completed are balanced — the debit total (the
grand_total on the debit entry) equals the credit total (total_amount on
the credit entry plus tax_amount over the tax rows). -/
theorem C9_gl_entries_balanced (doc : Document) :
    ((make_gl_entries (calculate_totals doc)).map
        (fun e => flt e.debit)).sum =
      ((make_gl_entries (calculate_totals doc)).map
        (fun e => flt e.credit)).sum ∧
    ((make_gl_entries (calculate_totals doc)).map
        (fun e => flt e.debit)).sum = flt (calculate_totals doc).grand_total ∧
    ((make_gl_entries (calculate_totals doc)).map
        (fun e => flt e.credit)).sum =
      flt (calculate_totals doc).total_amount +
        sumTax (calculate_totals doc).taxes := by
  rw [calculate_totals_eq]
  unfold make_gl_entries
  simp [flt, sumTax, List.map_map, Function.comp_def, sum_map_zero]

/-- Counterexample to claim C2 as stated: on a document whose stock check
fails, the actual validate has already computed the totals (total_amount
is set on the returned state), while the claimed ordering — stock check
before derived-total computation — aborts with the totals still unset.
The two compositions therefore differ at this input. -/
theorem C2_counterexample :
    validate env0 docStockShort ≠ validateClaimedOrder env0 docStockShort := by
  have h1 : (validate env0 docStockShort).1.total_amount = some 50 := by
    norm_num +decide [validate, validate_required_fields, validate_dates,
      validate_quantities, validate_against_stock, truthyS, truthyQ, truthyD,
      env0, docStockShort, itemStockShort, baseDoc, calculate_totals_eq,
      itemCalc, sumAmount, flt]
  have h2 : (validateClaimedOrder env0 docStockShort).1.total_amount = none := by
    norm_num +decide [validateClaimedOrder, runChecks, checkRequired,
      checkDates, checkQuantities, checkStock, checkTotals,
      validate_required_fields, validate_dates, validate_quantities,
      validate_against_stock, truthyS, truthyQ, truthyD, env0, docStockShort,
      itemStockShort, baseDoc, flt]
  intro heq
  rw [heq, h2] at h1
  cases h1

/-- Claim C2 (amended): validate runs its checks in the order
required-field presence → date ordering → quantity/rate sanity →
derived-total computation → stock availability (the source order, with
the last two swapped relative to the claim), each short-circuiting the
sequence on the first violation: validate equals the short-circuiting
composition of the five checks in that order. -/
theorem C2_validate_order (env : Env) (doc : Document) :
    validate env doc = validateCodeOrder env doc := by
  unfold validateCodeOrder
  cases h1 : validate_required_fields doc with
  | some e => simp [validate, runChecks, checkRequired, h1]
  | none =>
    cases h2 : validate_dates env doc with
    | some e => simp [validate, runChecks, checkRequired, checkDates, h1, h2]
    | none =>
      cases h3 : validate_quantities doc.items with
      | some e =>
        simp [validate, runChecks, checkRequired, checkDates, checkQuantities,
          h1, h2, h3]
      | none =>
        cases h4 : validate_against_stock env (calculate_totals doc).items with
        | some e =>
          simp [validate, runChecks, checkRequired, checkDates,
            checkQuantities, checkTotals, checkStock, h1, h2, h3, h4]
        | none =>
          simp [validate, runChecks, checkRequired, checkDates,
            checkQuantities, checkTotals, checkStock, h1, h2, h3, h4]

/-- Counterexample to claim C3 as stated: saving a document that has a
qty-0 child row but no customer fails at validate_required_fields — an
error validate_quantities never raises — not at validate_quantities. -/
theorem C3_counterexample :
    (∃ item ∈ docQtyZeroNoCustomer.items, flt item.qty = 0) ∧
    (run_transition env0 (World.mk docQtyZeroNoCustomer [])
      Transition.save).err = some Err.customerRequired ∧
    errFromValidateQuantities Err.customerRequired = false := by
  refine ⟨⟨itemQtyZero, ?_, rfl⟩, ?_, rfl⟩
  · simp [docQtyZeroNoCustomer, baseDoc]
  · norm_num +decide [run_transition, run_save, validate,
      validate_required_fields, truthyS, docQtyZeroNoCustomer, itemQtyZero,
      baseDoc, env0]

/-- Claim C3 (amended): for every transition whose hook order includes
validate — insert (given no duplicate record blocks before_insert), save
and submit — a document containing a child row with flt qty = 0 fails the
transition: an error is raised, the status is not advanced, the ledger is
untouched and no hook point later than validate is invoked; and whenever
the earlier required-field and date checks pass, the error raised is one
of validate_quantities's. -/
theorem C3_qty_zero_blocks (env : Env) (w : World) (t : Transition)
    (ht : t = Transition.insert ∨ t = Transition.save ∨
      t = Transition.submit)
    (hdup : t = Transition.insert → env.duplicate_exists = false)
    (hq0 : ∃ item ∈ w.doc.items, flt item.qty = 0) :
    (∃ e, (run_transition env w t).err = some e) ∧
    (run_transition env w t).world.doc.status = w.doc.status ∧
    (run_transition env w t).world.ledger = w.ledger ∧
    (∀ hname ∈ (run_transition env w t).invoked,
      hname = "before_insert" ∨ hname = "validate") ∧
    (validate_required_fields w.doc = none → validate_dates env w.doc = none →
      ∃ e, (run_transition env w t).err = some e ∧
        errFromValidateQuantities e = true) := by
  have hfail : ∃ e, (validate env w.doc).2 = some e := by
    cases h1 : validate_required_fields w.doc with
    | some e =>
      exact ⟨e, by rw [validate_eq_of_required_fail env w.doc e h1]⟩
    | none =>
      cases h2 : validate_dates env w.doc with
      | some e =>
        exact ⟨e, by rw [validate_eq_of_dates_fail env w.doc e h1 h2]⟩
      | none =>
        rcases validate_quantities_zero_fails w.doc.items hq0 with ⟨e, he, _⟩
        exact ⟨e, by rw [validate_eq_of_quantities_fail env w.doc e h1 h2 he]⟩
  rcases hfail with ⟨e, he⟩
  have hmain := run_transition_validate_fail env w t e ht hdup he
  refine ⟨⟨e, hmain.1⟩, hmain.2.1, hmain.2.2.1, hmain.2.2.2, ?_⟩
  intro hreq hdates
  rcases validate_quantities_zero_fails w.doc.items hq0 with ⟨e2, he2, hflag⟩
  have hv2 : (validate env w.doc).2 = some e2 := by
    rw [validate_eq_of_quantities_fail env w.doc e2 hreq hdates he2]
  have hmain2 := run_transition_validate_fail env w t e2 ht hdup hv2
  exact ⟨e2, hmain2.1, hflag⟩

/-- Witness for C3 (amended) at a concrete qty-0 document under save. -/
theorem C3_qty_zero_blocks_witness :
    (∃ item ∈ docQtyZero.items, flt item.qty = 0) ∧
    ((∃ e, (run_transition env0 (World.mk docQtyZero [])
        Transition.save).err = some e) ∧
     (run_transition env0 (World.mk docQtyZero [])
        Transition.save).world.doc.status = docQtyZero.status ∧
     (run_transition env0 (World.mk docQtyZero [])
        Transition.save).world.ledger = [] ∧
     (∀ hname ∈ (run_transition env0 (World.mk docQtyZero [])
        Transition.save).invoked,
       hname = "before_insert" ∨ hname = "validate") ∧
     (validate_required_fields docQtyZero = none →
       validate_dates env0 docQtyZero = none →
       ∃ e, (run_transition env0 (World.mk docQtyZero [])
         Transition.save).err = some e ∧
         errFromValidateQuantities e = true)) :=
  ⟨⟨itemQtyZero, by simp [docQtyZero, baseDoc], rfl⟩,
   C3_qty_zero_blocks env0 (World.mk docQtyZero []) Transition.save
     (Or.inr (Or.inl rfl)) (fun h => Transition.noConfusion h)
     ⟨itemQtyZero, by simp [docQtyZero, baseDoc], rfl⟩⟩

/-- On a document with a row whose qty exceeds its warehouse's stock,
validate throws; when the three earlier checks pass, the thrown error is
the insufficient-stock one, classified external-dependency. -/
theorem validate_fails_of_stock_short (env : Env) (doc : Document)
    (item : Item) (hmem : item ∈ doc.items)
    (hwh : truthyS item.warehouse = true)
    (hstock : env.stock item.item_code (item.warehouse.getD "") <
      flt item.qty) :
    ∃ e, (validate env doc).2 = some e ∧
      (validate_required_fields doc = none → validate_dates env doc = none →
        validate_quantities doc.items = none →
        errClass e = ErrClass.externalDependency) := by
  cases h1 : validate_required_fields doc with
  | some e =>
    refine ⟨e, by rw [validate_eq_of_required_fail env doc e h1], ?_⟩
    intro hreq _ _
    simp [hreq] at h1
    exact Option.noConfusion hreq
  | none =>
    cases h2 : validate_dates env doc with
    | some e =>
      refine ⟨e, by rw [validate_eq_of_dates_fail env doc e h1 h2], ?_⟩
      intro _ hdates _
      simp [hdates] at h2
      exact Option.noConfusion hdates
    | none =>
      cases h3 : validate_quantities doc.items with
      | some e =>
        refine ⟨e, by rw [validate_eq_of_quantities_fail env doc e h1 h2 h3],
          ?_⟩
        intro _ _ hqty
        simp [hqty] at h3
        exact Option.noConfusion hqty
      | none =>
        have hpos := validate_quantities_none doc.items h3
        have hmap : (calculate_totals doc).items = doc.items.map itemCalc := by
          rw [calculate_totals_eq]
        have hpos1 : ∀ it ∈ doc.items.map itemCalc, 0 < flt it.qty := by
          intro it hit
          rcases List.mem_map.mp hit with ⟨x, hx, hxe⟩
          rw [← hxe]
          exact (hpos x hx).1
        have hex : ∃ it ∈ doc.items.map itemCalc,
            truthyS it.warehouse = true ∧
            env.stock it.item_code (it.warehouse.getD "") < flt it.qty :=
          ⟨itemCalc item, List.mem_map_of_mem itemCalc hmem, hwh, hstock⟩
        rcases validate_against_stock_fails env (doc.items.map itemCalc)
          hpos1 hex with ⟨c, a, r, hres⟩
        have hv := validate_eq_of_checks_pass env doc h1 h2 h3
        refine ⟨Err.insufficientStock c a r, ?_, fun _ _ _ => rfl⟩
        rw [hv]
        simpa [hmap] using hres

/-- Counterexample to claim C5 as stated: submitting a document whose
item requires 5 units against zero stock but which also lacks a customer
fails with the required-field validation error, not with an
external-dependency-class error. -/
theorem C5_counterexample :
    (∃ item ∈ docStockShortNoCustomer.items, truthyS item.warehouse = true ∧
      env0.stock item.item_code (item.warehouse.getD "") < flt item.qty) ∧
    (run_transition env0 (World.mk docStockShortNoCustomer [])
      Transition.submit).err.map errClass = some ErrClass.validation ∧
    ErrClass.validation ≠ ErrClass.externalDependency := by
  refine ⟨⟨itemStockShort, ?_, by decide, by decide⟩, ?_, by decide⟩
  · simp [docStockShortNoCustomer, docStockShort, baseDoc]
  · norm_num +decide [run_transition, run_submit, validate,
      validate_required_fields, truthyS, docStockShortNoCustomer,
      docStockShort, itemStockShort, baseDoc, env0, errClass, Option.map]

/-- Claim C5 (amended): submitting a document containing a child row
whose qty exceeds the stock collaborator's available quantity for its
(truthy) warehouse always fails before any ledger posting — an error is
raised, the ledger and status are untouched and on_submit is never
invoked; and whenever the earlier required-field, date and quantity
checks pass, the error is classified external-dependency (the
insufficient-stock throw of validate_against_stock). -/
theorem C5_stock_short_blocks_submit (env : Env) (w : World) (item : Item)
    (hmem : item ∈ w.doc.items)
    (hwh : truthyS item.warehouse = true)
    (hstock : env.stock item.item_code (item.warehouse.getD "") <
      flt item.qty) :
    (∃ e, (run_transition env w Transition.submit).err = some e) ∧
    (run_transition env w Transition.submit).world.ledger = w.ledger ∧
    (run_transition env w Transition.submit).world.doc.status =
      w.doc.status ∧
    "on_submit" ∉ (run_transition env w Transition.submit).invoked ∧
    (validate_required_fields w.doc = none → validate_dates env w.doc = none →
      validate_quantities w.doc.items = none →
      (run_transition env w Transition.submit).err.map errClass =
        some ErrClass.externalDependency) := by
  rcases validate_fails_of_stock_short env w.doc item hmem hwh hstock with
    ⟨e, he, hclass⟩
  have hmain := run_transition_validate_fail env w Transition.submit e
    (Or.inr (Or.inr rfl)) (fun h => Transition.noConfusion h) he
  refine ⟨⟨e, hmain.1⟩, hmain.2.2.1, hmain.2.1, ?_, ?_⟩
  · intro hmem2
    rcases hmain.2.2.2 "on_submit" hmem2 with h | h <;> exact absurd h (by decide)
  · intro hreq hdates hqty
    rw [hmain.1]
    simp [hclass hreq hdates hqty]

/-- Witness for C5 (amended) at the stock-short document under env0. -/
theorem C5_stock_short_blocks_submit_witness :
    (∃ e, (run_transition env0 (World.mk docStockShort [])
      Transition.submit).err = some e) ∧
    (run_transition env0 (World.mk docStockShort [])
      Transition.submit).world.ledger = [] ∧
    (run_transition env0 (World.mk docStockShort [])
      Transition.submit).world.doc.status = docStockShort.status ∧
    "on_submit" ∉ (run_transition env0 (World.mk docStockShort [])
      Transition.submit).invoked ∧
    (validate_required_fields docStockShort = none →
      validate_dates env0 docStockShort = none →
      validate_quantities docStockShort.items = none →
      (run_transition env0 (World.mk docStockShort [])
        Transition.submit).err.map errClass =
        some ErrClass.externalDependency) :=
  C5_stock_short_blocks_submit env0 (World.mk docStockShort [])
    itemStockShort (by simp [docStockShort, baseDoc]) (by decide) (by decide)

/-- Freshly posted (non-reversal) ledger records all pass the
non-reversal filter. -/
theorem filter_nonreversal (es : List GlEntry) :
    (es.map (fun e => LedgerRecord.mk e false)).filter
      (fun rec => !rec.reversal) =
    es.map (fun e => LedgerRecord.mk e false) := by
  induction es <;> simp [*]

/-- On a world whose ledger holds exactly freshly posted entries,
get_gl_entries returns those entries. -/
theorem get_gl_entries_fresh (doc : Document) (es : List GlEntry) :
    get_gl_entries
      (World.mk doc (es.map (fun e => LedgerRecord.mk e false))) = es := by
  unfold get_gl_entries
  rw [filter_nonreversal]
  simp [List.map_map, Function.comp_def]

/-- Claim C6: cancelling a document just submitted against a fresh ledger
reverses exactly the ledger entries created at submit time — the ledger
afterwards is the submit-time records (all non-reversal) followed by one
sign-inverted reversal record per original — and sets the document's
status to Cancelled.  The reversal semantics of the ledger collaborator
and get_gl_entries are modelled from the spec. -/
theorem C6_cancel_reverses (env : Env) (w : World)
    (hled : w.ledger = [])
    (hsub : (run_transition env w Transition.submit).err = none) :
    (run_transition env (run_transition env w Transition.submit).world
      Transition.cancel).err = none ∧
    (run_transition env (run_transition env w Transition.submit).world
      Transition.cancel).world.doc.status = Status.Cancelled ∧
    (∀ rec ∈ (run_transition env w Transition.submit).world.ledger,
      rec.reversal = false) ∧
    (run_transition env (run_transition env w Transition.submit).world
      Transition.cancel).world.ledger =
      (run_transition env w Transition.submit).world.ledger ++
        (run_transition env w Transition.submit).world.ledger.map
          (fun rec => LedgerRecord.mk (invertEntry rec.entry) true) := by
  rcases hveq : validate env w.doc with ⟨d1, oe⟩
  cases oe with
  | some e =>
    exfalso
    have hbad : (run_transition env w Transition.submit).err = some e := by
      simp only [run_transition, run_submit, hveq]
    rw [hbad] at hsub
    cases hsub
  | none =>
    cases hp : check_permissions env with
    | some e =>
      exfalso
      have hbad : (run_transition env w Transition.submit).err = some e := by
        simp only [run_transition, run_submit, hveq, hp]
      rw [hbad] at hsub
      cases hsub
    | none =>
      have hrun : run_transition env w Transition.submit =
          { world :=
              { doc := { d1 with status := Status.Submitted },
                ledger := post_entries w.ledger
                  (make_gl_entries { d1 with status := Status.Submitted })
                  false },
            err := none,
            invoked := ["validate", "before_submit", "persist",
                        "on_submit"] } := by
        simp only [run_transition, run_submit, hveq, hp, validate_for_submit,
          update_status]
      rw [hrun, hled]
      simp only [post_entries, Bool.false_eq_true, if_false,
        List.nil_append]
      have hcancel : run_transition env
          (World.mk { d1 with status := Status.Submitted }
            ((make_gl_entries { d1 with status := Status.Submitted }).map
              (fun e => LedgerRecord.mk e false)))
          Transition.cancel =
          { world :=
              { doc := { d1 with status := Status.Cancelled },
                ledger := ((make_gl_entries
                    { d1 with status := Status.Submitted }).map
                    (fun e => LedgerRecord.mk e false)) ++
                  (make_gl_entries { d1 with status := Status.Submitted }).map
                    (fun e => LedgerRecord.mk (invertEntry e) true) },
            err := none,
            invoked := ["before_cancel", "persist", "on_cancel"] } := by
        simp only [run_transition, run_cancel, check_if_cancel_allowed]
        rw [get_gl_entries_fresh]
        simp [post_entries]
      rw [hcancel]
      refine ⟨rfl, rfl, ?_, ?_⟩
      · intro rec hm
        rcases List.mem_map.mp hm with ⟨x, _, hxe⟩
        rw [← hxe]
      · simp [List.map_map, Function.comp_def]

/-- Witness for C6: submit then cancel on the concrete clean document
under the ample-stock environment. -/
theorem C6_cancel_reverses_witness :
    (run_transition env1 (run_transition env1 (World.mk docOK [])
      Transition.submit).world Transition.cancel).err = none ∧
    (run_transition env1 (run_transition env1 (World.mk docOK [])
      Transition.submit).world Transition.cancel).world.doc.status =
      Status.Cancelled ∧
    (∀ rec ∈ (run_transition env1 (World.mk docOK [])
      Transition.submit).world.ledger, rec.reversal = false) ∧
    (run_transition env1 (run_transition env1 (World.mk docOK [])
      Transition.submit).world Transition.cancel).world.ledger =
      (run_transition env1 (World.mk docOK [])
        Transition.submit).world.ledger ++
        (run_transition env1 (World.mk docOK [])
          Transition.submit).world.ledger.map
          (fun rec => LedgerRecord.mk (invertEntry rec.entry) true) :=
  C6_cancel_reverses env1 (World.mk docOK []) rfl
    (by norm_num +decide [run_transition, run_submit, validate,
      validate_required_fields, validate_dates, validate_quantities,
      validate_against_stock, check_permissions, truthyS, truthyQ, truthyD,
      env1, docOK, baseDoc, calculate_totals_eq, itemCalc, flt])

/-- A hook list made only of pre-persist hook points contains no after
hook. -/
theorem no_after_hooks_in (l : List String)
    (hl : ∀ x ∈ l, x = "before_insert" ∨ x = "validate" ∨
      x = "before_submit" ∨ x = "before_cancel" ∨ x = "on_trash" ∨
      x = "before_rename") :
    ∀ hname ∈ afterHookNames, hname ∉ l := by
  intro hname hm hmem
  rcases hl hname hmem with h | h | h | h | h | h <;> subst h <;>
    exact absurd hm (by decide)

/-- Claim C7: whatever error any of the six transitions raises —
validation, external-dependency or permission class — the transition
aborts with the document's status unchanged, the ledger untouched (no
side effect persists) and no after hook (on_update, after_insert,
on_submit, on_cancel, after_delete, after_rename) invoked; the failure
is confined to that one transition invocation, which returns the error
as a value. -/
theorem C7_error_atomicity (env : Env) (w : World) (t : Transition) (e : Err)
    (herr : (run_transition env w t).err = some e) :
    (run_transition env w t).world.doc.status = w.doc.status ∧
    (run_transition env w t).world.ledger = w.ledger ∧
    ∀ hname ∈ afterHookNames, hname ∉ (run_transition env w t).invoked := by
  cases t with
  | insert =>
    cases hu : validate_unique_constraints env with
    | some e2 =>
      have hrun : run_transition env w Transition.insert =
          { world := w, err := some e2, invoked := ["before_insert"] } := by
        simp only [run_transition, run_insert, hu]
      rw [hrun]
      exact ⟨rfl, rfl, no_after_hooks_in _ (by intro x hx; simp at hx; tauto)⟩
    | none =>
      rcases hveq : validate env w.doc with ⟨d1, oe⟩
      have hst := validate_fst_status env w.doc
      rw [hveq] at hst
      simp only at hst
      cases oe with
      | some e2 =>
        have hrun : run_transition env w Transition.insert =
            { world := { w with doc := d1 }, err := some e2,
              invoked := ["before_insert", "validate"] } := by
          simp only [run_transition, run_insert, hu, hveq]
        rw [hrun]
        exact ⟨hst, rfl, no_after_hooks_in _ (by intro x hx; simp at hx; tauto)⟩
      | none =>
        exfalso
        have hok : (run_transition env w Transition.insert).err = none := by
          simp only [run_transition, run_insert, hu, hveq]
        rw [hok] at herr
        cases herr
  | save =>
    rcases hveq : validate env w.doc with ⟨d1, oe⟩
    have hst := validate_fst_status env w.doc
    rw [hveq] at hst
    simp only at hst
    cases oe with
    | some e2 =>
      have hrun : run_transition env w Transition.save =
          { world := { w with doc := d1 }, err := some e2,
            invoked := ["validate"] } := by
        simp only [run_transition, run_save, hveq]
      rw [hrun]
      exact ⟨hst, rfl, no_after_hooks_in _ (by intro x hx; simp at hx; tauto)⟩
    | none =>
      exfalso
      have hok : (run_transition env w Transition.save).err = none := by
        simp only [run_transition, run_save, hveq]
      rw [hok] at herr
      cases herr
  | submit =>
    rcases hveq : validate env w.doc with ⟨d1, oe⟩
    have hst := validate_fst_status env w.doc
    rw [hveq] at hst
    simp only at hst
    cases oe with
    | some e2 =>
      have hrun : run_transition env w Transition.submit =
          { world := { w with doc := d1 }, err := some e2,
            invoked := ["validate"] } := by
        simp only [run_transition, run_submit, hveq]
      rw [hrun]
      exact ⟨hst, rfl, no_after_hooks_in _ (by intro x hx; simp at hx; tauto)⟩
    | none =>
      cases hp : check_permissions env with
      | some e2 =>
        have hrun : run_transition env w Transition.submit =
            { world := { w with doc := d1 }, err := some e2,
              invoked := ["validate", "before_submit"] } := by
          simp only [run_transition, run_submit, hveq, hp]
        rw [hrun]
        exact ⟨hst, rfl, no_after_hooks_in _ (by intro x hx; simp at hx; tauto)⟩
      | none =>
        exfalso
        have hok : (run_transition env w Transition.submit).err = none := by
          simp only [run_transition, run_submit, hveq, hp]
        rw [hok] at herr
        cases herr
  | cancel =>
    cases hc : check_if_cancel_allowed w.doc with
    | some e2 =>
      have hrun : run_transition env w Transition.cancel =
          { world := w, err := some e2, invoked := ["before_cancel"] } := by
        simp only [run_transition, run_cancel, hc]
      rw [hrun]
      exact ⟨rfl, rfl, no_after_hooks_in _ (by intro x hx; simp at hx; tauto)⟩
    | none =>
      exfalso
      have hok : (run_transition env w Transition.cancel).err = none := by
        simp only [run_transition, run_cancel, hc]
      rw [hok] at herr
      cases herr
  | delete =>
    cases hd : check_if_delete_allowed env with
    | some e2 =>
      have hrun : run_transition env w Transition.delete =
          { world := w, err := some e2, invoked := ["on_trash"] } := by
        simp only [run_transition, run_delete, hd]
      rw [hrun]
      exact ⟨rfl, rfl, no_after_hooks_in _ (by intro x hx; simp at hx; tauto)⟩
    | none =>
      exfalso
      have hok : (run_transition env w Transition.delete).err = none := by
        simp only [run_transition, run_delete, hd]
      rw [hok] at herr
      cases herr
  | rename new_name =>
    cases hr : check_if_rename_allowed env with
    | some e2 =>
      have hrun : run_transition env w (Transition.rename new_name) =
          { world := w, err := some e2, invoked := ["before_rename"] } := by
        simp only [run_transition, run_rename, hr]
      rw [hrun]
      exact ⟨rfl, rfl, no_after_hooks_in _ (by intro x hx; simp at hx; tauto)⟩
    | none =>
      exfalso
      have hok : (run_transition env w
          (Transition.rename new_name)).err = none := by
        simp only [run_transition, run_rename, hr]
      rw [hok] at herr
      cases herr

/-- Witness for C7 at a concrete failing save (missing customer). -/
theorem C7_error_atomicity_witness :
    (run_transition env0 (World.mk docQtyZeroNoCustomer [])
      Transition.save).err = some Err.customerRequired ∧
    ((run_transition env0 (World.mk docQtyZeroNoCustomer [])
      Transition.save).world.doc.status = docQtyZeroNoCustomer.status ∧
     (run_transition env0 (World.mk docQtyZeroNoCustomer [])
      Transition.save).world.ledger = [] ∧
     ∀ hname ∈ afterHookNames,
       hname ∉ (run_transition env0 (World.mk docQtyZeroNoCustomer [])
         Transition.save).invoked) :=
  ⟨by norm_num +decide [run_transition, run_save, validate,
      validate_required_fields, truthyS, docQtyZeroNoCustomer, itemQtyZero,
      baseDoc, env0],
   C7_error_atomicity env0 (World.mk docQtyZeroNoCustomer []) Transition.save
     Err.customerRequired
     (by norm_num +decide [run_transition, run_save, validate,
       validate_required_fields, truthyS, docQtyZeroNoCustomer, itemQtyZero,
       baseDoc, env0])⟩

/-- Claim C8: get_customer_info raises its caller-visible exception —
whose message names the requested identifier — precisely when no Customer
with that identifier exists in the persistence collaborator; otherwise it
returns the dictionary of the customer's name, customer_name,
customer_type, credit_limit, territory and customer_group. -/
theorem C8_get_customer_info (db : String → Option Customer)
    (customer : String) :
    ((∃ e, get_customer_info db customer = Except.error e) ↔
      db customer = none) ∧
    (db customer = none →
      get_customer_info db customer =
        Except.error (ApiErr.customerNotFound customer)) ∧
    (∀ cd, db customer = some cd →
      get_customer_info db customer =
        Except.ok (CustomerInfo.mk cd.name cd.customer_name cd.customer_type
          cd.credit_limit cd.territory cd.customer_group)) := by
  cases h : db customer with
  | none =>
    refine ⟨?_, fun _ => by simp [get_customer_info, h], ?_⟩
    · simp [get_customer_info, h]
    · intro cd hcd
      exact Option.noConfusion hcd
  | some cd =>
    refine ⟨?_, ?_, ?_⟩
    · constructor
      · rintro ⟨e, he⟩
        simp [get_customer_info, h] at he
      · intro hnone
        exact Option.noConfusion hnone
    · intro hnone
      exact Option.noConfusion hnone
    · intro cd2 hcd
      injection hcd with hcd
      subst hcd
      simp [get_customer_info, h]

/-- A customer record for the C8 witness. -/
def customerRecordA : Customer :=
  { name := "CUST-0001", customer_name := "Acme Industries",
    customer_type := "Company", credit_limit := 5000,
    territory := "All Territories", customer_group := "Commercial" }

/-- A persistence store holding exactly customerRecordA. -/
def db0 : String → Option Customer :=
  fun s => if s = "CUST-0001" then some customerRecordA else none

/-- Witness for C8 at the concrete store db0 and identifier CUST-0001. -/
theorem C8_get_customer_info_witness :
    ((∃ e, get_customer_info db0 "CUST-0001" = Except.error e) ↔
      db0 "CUST-0001" = none) ∧
    (db0 "CUST-0001" = none →
      get_customer_info db0 "CUST-0001" =
        Except.error (ApiErr.customerNotFound "CUST-0001")) ∧
    (∀ cd, db0 "CUST-0001" = some cd →
      get_customer_info db0 "CUST-0001" =
        Except.ok (CustomerInfo.mk cd.name cd.customer_name cd.customer_type
          cd.credit_limit cd.territory cd.customer_group)) :=
  C8_get_customer_info db0 "CUST-0001"

end Erp
